import Mathlib

/-!
Shallow embedding of the ollama-backend CRUD service
(src/index.ts together with the TypeORM entities User, Chat, Message).

The relational store is modelled as three lists of rows plus the
auto-increment counters of the primary-key columns.  Each Express route
handler becomes a pure function from the store (and the parsed request
parameters / body) to an `HResult` holding the HTTP response, the store
after the handler ran, and the ordered list of persistence-gateway
(TypeORM repository) calls the handler issued.  The `catch` branches of
the handlers (status 500 on a database exception) are unreachable in
this pure model and are therefore absent, with one exception: the
schema generated from the entities (`synchronize: true` on Postgres)
enforces the foreign keys, and the default ON DELETE NO ACTION of
message.chat_id -> chat.id makes `getRepository(Chat).delete` raise a
constraint violation for a chat that still has messages; that 500 path
is part of the chat-delete model.
-/

namespace OllamaBackend

/-- Row of the `user` table (entity/User.ts): surrogate id, firstName,
lastName, age. -/
structure User where
  id : Nat
  firstName : String
  lastName : String
  age : Int
deriving DecidableEq, Repr

/-- Row of the `chat` table (entity/Chat.ts): surrogate id, owning user
(ManyToOne, stored as the foreign key `user_id`), optional title,
creation timestamp. -/
structure Chat where
  id : Nat
  userId : Nat
  title : String
  createdAt : Nat
deriving DecidableEq, Repr

/-- Row of the `message` table (entity/Message.ts): surrogate id, owning
chat (foreign key `chat_id`), question, answer. -/
structure Message where
  id : Nat
  chatId : Nat
  question : String
  answer : String
deriving DecidableEq, Repr

/-- The relational store: the three tables plus the next value of each
auto-generated primary key. -/
structure Store where
  users : List User
  chats : List Chat
  messages : List Message
  nextUserId : Nat
  nextChatId : Nat
  nextMessageId : Nat
deriving DecidableEq, Repr

/-- The three entity tables, used to label persistence-gateway calls. -/
inductive Table where
  | user
  | chat
  | message
deriving DecidableEq, Repr

/-- One call into the persistence gateway (a TypeORM repository method).
`save` is the only call that writes a new row; `create` in the source is
a pure object constructor and issues no database call. -/
inductive GatewayCall where
  | findAll (t : Table)
  | findById (t : Table) (id : Nat)
  | findByFilter (t : Table)
  | save (t : Table)
  | deleteById (t : Table) (id : Nat)
  | deleteByFilter (t : Table)
deriving DecidableEq, Repr

/-- A JSON value appearing in a request-body field: the validators only
distinguish strings and integers.  A missing field is `Option.none` at
the use site. -/
inductive BVal where
  | vstr (s : String)
  | vint (n : Int)
deriving DecidableEq, Repr

/-- express-validator `isString()` on a possibly missing field. -/
def isStr : Option BVal → Bool
  | some (.vstr _) => true
  | _ => false

/-- express-validator `notEmpty()` on a possibly missing field. -/
def notEmptyV : Option BVal → Bool
  | some (.vstr s) => !s.isEmpty
  | some (.vint _) => true
  | none => false

/-- express-validator `isInt()` on a possibly missing field. -/
def isIntV : Option BVal → Bool
  | some (.vint _) => true
  | _ => false

/-- express-validator `isInt({ min })` on a possibly missing field. -/
def isIntMin (min : Int) : Option BVal → Bool
  | some (.vint n) => min ≤ n
  | _ => false

/-- One entry of `errors.array()`: the rule name when the rule failed,
nothing otherwise. -/
def vRule (name : String) (ok : Bool) : List String :=
  if ok then [] else [name]

/-- Body of POST /users. -/
structure UserBody where
  firstName : Option BVal
  lastName : Option BVal
  age : Option BVal
deriving DecidableEq, Repr

/-- Body of POST /chats. -/
structure ChatBody where
  userId : Option BVal
  title : Option BVal
deriving DecidableEq, Repr

/-- Body of POST /users/:userId/chats. -/
structure TitleBody where
  title : Option BVal
deriving DecidableEq, Repr

/-- Body of the two message-creation routes. -/
structure MessageBody where
  question : Option BVal
  answer : Option BVal
deriving DecidableEq, Repr

/-- Validation chain of POST /users:
`body('firstName').isString().notEmpty()`, same for lastName,
`body('age').isInt({ min: 0 })`. -/
def validateUserBody (b : UserBody) : List String :=
  vRule "firstName isString" (isStr b.firstName) ++
  vRule "firstName notEmpty" ( notEmptyV b.firstName) ++
  vRule "lastName isString" (isStr b.lastName) ++
  vRule "lastName notEmpty" ( notEmptyV b.lastName) ++
  vRule "age isInt min 0" (isIntMin 0 b.age)

/-- Validation chain of POST /chats:
`body('userId').isInt().notEmpty()`, `body('title').isString().notEmpty()`. -/
def validateChatBody (b : ChatBody) : List String :=
  vRule "userId isInt" (isIntV b.userId) ++
  vRule "userId notEmpty" ( notEmptyV b.userId) ++
  vRule "title isString" (isStr b.title) ++
  vRule "title notEmpty" ( notEmptyV b.title)

/-- Validation chain of POST /users/:userId/chats:
`body('title').isString().notEmpty()`. -/
def validateTitleBody (b : TitleBody) : List String :=
  vRule "title isString" (isStr b.title) ++
  vRule "title notEmpty" ( notEmptyV b.title)

/-- Validation chain of the message-creation routes:
`body('question').isString().notEmpty()`, same for answer. -/
def validateMessageBody (b : MessageBody) : List String :=
  vRule "question isString" (isStr b.question) ++
  vRule "question notEmpty" ( notEmptyV b.question) ++
  vRule "answer isString" (isStr b.answer) ++
  vRule "answer notEmpty" ( notEmptyV b.answer)

/-- JS destructuring of a validated string field. -/
def asStr : Option BVal → String
  | some (.vstr s) => s
  | _ => ""

/-- JS destructuring of a validated integer field. -/
def asInt : Option BVal → Int
  | some (.vint n) => n
  | _ => 0

/-- The natural-number value of a validated integer field (ids are
generated as positive integers, so the lookup key is a Nat). -/
def asNat : Option BVal → Nat
  | some (.vint n) => n.toNat
  | _ => 0

/-- Response payload shapes produced by the handlers. -/
inductive Payload where
  | userObj (u : User)
  | userList (us : List User)
  | chatObj (c : Chat)
  | chatWithMessages (c : Chat) (ms : List Message)
  | messageObj (m : Message)
  | messageList (ms : List Message)
  | wrappedChats (data : List Chat) (total : Nat)
  | errMsg (s : String)
  | validationErrors (errs : List String)
  | empty
deriving DecidableEq, Repr

/-- An HTTP response: status code and JSON body. -/
structure Response where
  status : Nat
  body : Payload
deriving DecidableEq, Repr

/-- Result of running one handler: the response, the store afterwards,
and the persistence-gateway calls it issued, in order. -/
structure HResult where
  resp : Response
  store : Store
  calls : List GatewayCall
deriving DecidableEq, Repr

/-- `getRepository(User).findOneBy({ id })`. -/
def findUserById (s : Store) (id : Nat) : Option User :=
  s.users.find? (fun u => u.id == id)

/-- `getRepository(Chat).findOneBy({ id })`. -/
def findChatById (s : Store) (id : Nat) : Option Chat :=
  s.chats.find? (fun c => c.id == id)

/-- `getRepository(Chat).findOne({ where: { id, user: { id: userId } } })`. -/
def findChatScoped (s : Store) (chatId userId : Nat) : Option Chat :=
  s.chats.find? (fun c => c.id == chatId && c.userId == userId)

/-- `getRepository(Message).find({ where: { chat: { id: chatId } } })`;
also the relation expansion `relations: ["messages"]` of a chat. -/
def messagesOfChat (s : Store) (chatId : Nat) : List Message :=
  s.messages.filter (fun m => m.chatId == chatId)

/-- `getRepository(Chat).find({ where: { user: { id: userId } } })`. -/
def chatsOfUser (s : Store) (userId : Nat) : List Chat :=
  s.chats.filter (fun c => c.userId == userId)

/-- GET /users — fetch all users, respond with the bare list. -/
def getUsers (s : Store) : HResult :=
  { resp := { status := 200, body := .userList s.users }
    store := s
    calls := [.findAll .user] }

/-- POST /users — validate the body; on failure 400 with the violated
rules; otherwise create and save the user and respond 201 with it. -/
def postUsers (s : Store) (b : UserBody) : HResult :=
  let errs := validateUserBody b
  if errs.isEmpty then
    let u : User :=
      { id := s.nextUserId
        firstName := asStr b.firstName
        lastName := asStr b.lastName
        age := asInt b.age }
    { resp := { status := 201, body := .userObj u }
      store := { s with users := s.users ++ [u], nextUserId := s.nextUserId + 1 }
      calls := [.save .user] }
  else
    { resp := { status := 400, body := .validationErrors errs }
      store := s
      calls := [] }

/-- GET /chats — fetch all chats, respond with the wrapped list shape
whose total is the array length. -/
def getChats (s : Store) : HResult :=
  { resp := { status := 200, body := .wrappedChats s.chats s.chats.length }
    store := s
    calls := [.findAll .chat] }

/-- POST /chats — validate; look up the owning user, 404 when absent;
otherwise create and save the chat and respond 201 with it.  `now` is
the `new Date()` timestamp taken at creation. -/
def postChats (s : Store) (b : ChatBody) (now : Nat) : HResult :=
  let errs := validateChatBody b
  if errs.isEmpty then
    let uid := asNat b.userId
    match findUserById s uid with
    | none =>
        { resp := { status := 404, body := .errMsg "User not found" }
          store := s
          calls := [.findById .user uid] }
    | some u =>
        let c : Chat :=
          { id := s.nextChatId
            userId := u.id
            title := asStr b.title
            createdAt := now }
        { resp := { status := 201, body := .chatObj c }
          store := { s with chats := s.chats ++ [c], nextChatId := s.nextChatId + 1 }
          calls := [.findById .user uid, .save .chat] }
  else
    { resp := { status := 400, body := .validationErrors errs }
      store := s
      calls := [] }

/-- DELETE /chats/:id — `getRepository(Chat).delete(chatId)`.  The
database enforces the foreign key message.chat_id → chat.id (NO
ACTION), so when the chat exists and messages still reference it the
delete raises a constraint violation: the handler's catch answers 500
and nothing is deleted.  Otherwise an affected-row count of 0 answers
404, else 204.  In every branch the handler issues only the single
delete on the chat table — never a delete on the message table. -/
def deleteChat (s : Store) (id : Nat) : HResult :=
  let affected := (s.chats.filter (fun c => c.id == id)).length
  let referenced := (s.messages.filter (fun m => m.chatId == id)).length
  if affected != 0 && referenced != 0 then
    { resp := { status := 500, body := .errMsg "Error deleting chat" }
      store := s
      calls := [.deleteById .chat id] }
  else if affected == 0 then
    { resp := { status := 404, body := .errMsg "Chat not found" }
      store := s
      calls := [.deleteById .chat id] }
  else
    { resp := { status := 204, body := .empty }
      store := { s with chats := s.chats.filter (fun c => c.id != id) }
      calls := [.deleteById .chat id] }

/-- GET /chats/:chatId/messages — find the messages of the chat; when
the list is empty respond 404, otherwise 200 with the bare list. -/
def getChatMessages (s : Store) (chatId : Nat) : HResult :=
  let msgs := messagesOfChat s chatId
  if msgs.length == 0 then
    { resp := { status := 404, body := .errMsg "No messages found for this chat" }
      store := s
      calls := [.findByFilter .message] }
  else
    { resp := { status := 200, body := .messageList msgs }
      store := s
      calls := [.findByFilter .message] }

/-- POST /chats/:chatId/messages — validate; look up the chat, 404 when
absent; otherwise create and save the message and respond 201 with it. -/
def postChatMessages (s : Store) (chatId : Nat) (b : MessageBody) : HResult :=
  let errs := validateMessageBody b
  if errs.isEmpty then
    match findChatById s chatId with
    | none =>
        { resp := { status := 404, body := .errMsg "Chat not found" }
          store := s
          calls := [.findById .chat chatId] }
    | some c =>
        let m : Message :=
          { id := s.nextMessageId
            chatId := c.id
            question := asStr b.question
            answer := asStr b.answer }
        { resp := { status := 201, body := .messageObj m }
          store := { s with messages := s.messages ++ [m], nextMessageId := s.nextMessageId + 1 }
          calls := [.findById .chat chatId, .save .message] }
  else
    { resp := { status := 400, body := .validationErrors errs }
      store := s
      calls := [] }

/-- GET /users/:userId/chats/:chatId/messages — find the chat scoped to
the user with its messages expanded; 404 when absent, otherwise 200 with
the bare message list. -/
def getUserChatMessages (s : Store) (userId chatId : Nat) : HResult :=
  match findChatScoped s chatId userId with
  | none =>
      { resp := { status := 404, body := .errMsg "Chat or User not found" }
        store := s
        calls := [.findByFilter .chat] }
  | some c =>
      { resp := { status := 200, body := .messageList (messagesOfChat s c.id) }
        store := s
        calls := [.findByFilter .chat] }

/-- POST /users/:userId/chats/:chatId/messages — validate; find the chat
scoped to the user, 404 when absent; otherwise create and save the
message and respond 201 with it. -/
def postUserChatMessages (s : Store) (userId chatId : Nat) (b : MessageBody) : HResult :=
  let errs := validateMessageBody b
  if errs.isEmpty then
    match findChatScoped s chatId userId with
    | none =>
        { resp := { status := 404, body := .errMsg "Chat or User not found" }
          store := s
          calls := [.findByFilter .chat] }
    | some c =>
        let m : Message :=
          { id := s.nextMessageId
            chatId := c.id
            question := asStr b.question
            answer := asStr b.answer }
        { resp := { status := 201, body := .messageObj m }
          store := { s with messages := s.messages ++ [m], nextMessageId := s.nextMessageId + 1 }
          calls := [.findByFilter .chat, .save .message] }
  else
    { resp := { status := 400, body := .validationErrors errs }
      store := s
      calls := [] }

/-- POST /users/:userId/chats — validate the title; look up the user,
404 when absent; otherwise create and save the chat and respond 201
with it. -/
def postUserChats (s : Store) (userId : Nat) (b : TitleBody) (now : Nat) : HResult :=
  let errs := validateTitleBody b
  if errs.isEmpty then
    match findUserById s userId with
    | none =>
        { resp := { status := 404, body := .errMsg "User not found" }
          store := s
          calls := [.findById .user userId] }
    | some u =>
        let c : Chat :=
          { id := s.nextChatId
            userId := u.id
            title := asStr b.title
            createdAt := now }
        { resp := { status := 201, body := .chatObj c }
          store := { s with chats := s.chats ++ [c], nextChatId := s.nextChatId + 1 }
          calls := [.findById .user userId, .save .chat] }
  else
    { resp := { status := 400, body := .validationErrors errs }
      store := s
      calls := [] }

/-- GET /users/:userId/chats — find the user's chats; when the list is
empty respond 404, otherwise 200 with the wrapped list shape. -/
def getUserChats (s : Store) (userId : Nat) : HResult :=
  let chats := chatsOfUser s userId
  if chats.length == 0 then
    { resp := { status := 404, body := .errMsg "No chats found for this user" }
      store := s
      calls := [.findByFilter .chat] }
  else
    { resp := { status := 200, body := .wrappedChats chats chats.length }
      store := s
      calls := [.findByFilter .chat] }

/-- A successful (204) chat delete removes exactly the chats with the
deleted id. -/
theorem deleteChat_store_of_204 (s : Store) (id : Nat)
    (h : (deleteChat s id).resp.status = 204) :
    (deleteChat s id).store = { s with chats := s.chats.filter (fun c => c.id != id) } := by
  cases hA : ((s.chats.filter (fun c => c.id == id)).length != 0
      && (s.messages.filter (fun m => m.chatId == id)).length != 0) with
  | true =>
      unfold deleteChat at h
      dsimp only at h
      rw [hA] at h
      simp at h
  | false =>
      cases hB : ((s.chats.filter (fun c => c.id == id)).length == 0) with
      | true =>
          unfold deleteChat at h
          dsimp only at h
          rw [hA, hB] at h
          simp at h
      | false =>
          unfold deleteChat
          dsimp only
          rw [hA, hB]
          rfl

/-- A store with one user (id 1), one chat (id 1, owned by user 1) and
one message (id 1, in chat 1). -/
def demoStore : Store :=
  { users := [{ id := 1, firstName := "Ada", lastName := "L", age := 30 }]
    chats := [{ id := 1, userId := 1, title := "t", createdAt := 0 }]
    messages := [{ id := 1, chatId := 1, question := "q", answer := "a" }]
    nextUserId := 2
    nextChatId := 2
    nextMessageId := 2 }

/-- The empty store. -/
def emptyStore : Store :=
  { users := [], chats := [], messages := []
    nextUserId := 1, nextChatId := 1, nextMessageId := 1 }

/-- A store where user 1 owns the sole chat (id 1), which has no
messages. -/
def soleChatStore : Store :=
  { users := [{ id := 1, firstName := "Ada", lastName := "L", age := 30 }]
    chats := [{ id := 1, userId := 1, title := "t", createdAt := 0 }]
    messages := []
    nextUserId := 2
    nextChatId := 2
    nextMessageId := 1 }

/-- A store holding only user 1, who owns no chats. -/
def soleUserStore : Store :=
  { users := [{ id := 1, firstName := "Ada", lastName := "L", age := 30 }]
    chats := []
    messages := []
    nextUserId := 2
    nextChatId := 1
    nextMessageId := 1 }

/-! ## Claims -/

/-- Claim C1, counterexample: in `demoStore` message 1 references
chat 1, so DELETE /chats/1 is rejected by the foreign-key restriction:
the handler answers 500 and nothing at all is deleted, and its only
persistence call is the single delete on the chat table — the
operation neither deletes the chat's messages first nor deletes the
chat row at all, contrary to the claimed delete-messages-then-chat
behavior. -/
theorem C1_counterexample :
    (deleteChat demoStore 1).resp.status = 500 ∧
    (deleteChat demoStore 1).store = demoStore ∧
    (deleteChat demoStore 1).calls = [.deleteById .chat 1] :=
  ⟨rfl, rfl, rfl⟩

/-- Claim C1, amended: the chat-delete handler issues only the single
delete on the chat table and never deletes Messages; the user and
message tables are untouched in every branch.  When the chat exists
and messages still reference it, the foreign-key restriction makes the
delete fail: 500 with the store fully unchanged.  A delete succeeds
(204) only when the chat exists and has no messages, and then it
removes exactly the chats with that id — so after a successful delete
no Message with that chat id remains, only because the delete cannot
succeed while any exist. -/
theorem C1_amended_chat_delete_frame (s : Store) (id : Nat) :
    (deleteChat s id).calls = [.deleteById .chat id] ∧
    (deleteChat s id).store.users = s.users ∧
    (deleteChat s id).store.messages = s.messages ∧
    (s.chats.filter (fun c => c.id == id) ≠ [] → messagesOfChat s id ≠ [] →
      (deleteChat s id).resp.status = 500 ∧ (deleteChat s id).store = s) ∧
    ((deleteChat s id).resp.status = 204 →
      (deleteChat s id).store.chats = s.chats.filter (fun c => c.id != id) ∧
      messagesOfChat (deleteChat s id).store id = []) := by
  refine ⟨?_, ?_, ?_, ?_, ?_⟩
  · unfold deleteChat
    dsimp only
    split
    · rfl
    · split <;> rfl
  · unfold deleteChat
    dsimp only
    split
    · rfl
    · split <;> rfl
  · unfold deleteChat
    dsimp only
    split
    · rfl
    · split <;> rfl
  · intro hc hm
    have h1 : (s.chats.filter (fun c => c.id == id)).length ≠ 0 := by
      intro h0
      exact hc (List.length_eq_zero.mp h0)
    have h2 : (s.messages.filter (fun m => m.chatId == id)).length ≠ 0 := by
      intro h0
      exact hm (List.length_eq_zero.mp h0)
    have hA : ((s.chats.filter (fun c => c.id == id)).length != 0
        && (s.messages.filter (fun m => m.chatId == id)).length != 0) = true := by
      simp only [Bool.and_eq_true, bne_iff_ne]
      exact ⟨h1, h2⟩
    unfold deleteChat
    dsimp only
    rw [hA]
    exact ⟨rfl, rfl⟩
  · intro h204
    refine ⟨by rw [deleteChat_store_of_204 s id h204], ?_⟩
    cases hA : ((s.chats.filter (fun c => c.id == id)).length != 0
        && (s.messages.filter (fun m => m.chatId == id)).length != 0) with
    | true =>
        unfold deleteChat at h204
        dsimp only at h204
        rw [hA] at h204
        simp at h204
    | false =>
        cases hB : ((s.chats.filter (fun c => c.id == id)).length == 0) with
        | true =>
            unfold deleteChat at h204
            dsimp only at h204
            rw [hA, hB] at h204
            simp at h204
        | false =>
            have hne : (s.chats.filter (fun c => c.id == id)).length ≠ 0 := by
              simpa using hB
            have hlen2 : (s.messages.filter (fun m => m.chatId == id)).length = 0 := by
              by_contra hnz
              have hA2 : ((s.chats.filter (fun c => c.id == id)).length != 0
                  && (s.messages.filter (fun m => m.chatId == id)).length != 0) = true := by
                simp only [Bool.and_eq_true, bne_iff_ne]
                exact ⟨hne, hnz⟩
              rw [hA] at hA2
              exact Bool.false_ne_true hA2
            have hnil : s.messages.filter (fun m => m.chatId == id) = [] :=
              List.length_eq_zero.mp hlen2
            unfold deleteChat messagesOfChat
            dsimp only
            rw [hA, hB]
            exact hnil

/-- Witness for Claim C1 (amended): deleting chat 1 of `demoStore`
(message 1 references it) answers 500 and changes nothing; deleting
chat 1 of `soleChatStore` (no messages) succeeds and leaves no message
with chat id 1. -/
theorem C1_witness :
    ((deleteChat demoStore 1).resp.status = 500 ∧ (deleteChat demoStore 1).store = demoStore) ∧
    (deleteChat soleChatStore 1).store.chats
      = soleChatStore.chats.filter (fun c => c.id != 1) ∧
    messagesOfChat (deleteChat soleChatStore 1).store 1 = [] := by
  obtain ⟨-, -, -, h4, -⟩ := C1_amended_chat_delete_frame demoStore 1
  obtain ⟨-, -, -, -, h5⟩ := C1_amended_chat_delete_frame soleChatStore 1
  obtain ⟨hc, hd⟩ := h5 rfl
  exact ⟨h4 (by decide) (by decide), hc, hd⟩

/-- Claim C2: creating a chat under a non-existent user answers 404 and
leaves the store unchanged — no Chat row is created — on both the
unscoped and the user-scoped chat-creation route. -/
theorem C2_chat_create_missing_user_404 (s : Store) (b : ChatBody) (tb : TitleBody)
    (userId now : Nat)
    (hb : validateChatBody b = [])
    (ht : validateTitleBody tb = [])
    (hu : findUserById s (asNat b.userId) = none)
    (hu2 : findUserById s userId = none) :
    (postChats s b now).resp.status = 404 ∧
    (postChats s b now).store = s ∧
    (postUserChats s userId tb now).resp.status = 404 ∧
    (postUserChats s userId tb now).store = s := by
  unfold postChats postUserChats
  dsimp only
  rw [hb, ht]
  simp [hu, hu2]

/-- Body for the Claim C2 witness: user id 5, a valid title. -/
def c2ChatBody : ChatBody := { userId := some (.vint 5), title := some (.vstr "t") }

/-- Scoped-route body for the Claim C2 witness. -/
def c2TitleBody : TitleBody := { title := some (.vstr "t") }

/-- Witness for Claim C2: on the empty store (user 5 does not exist)
both chat-creation routes answer 404 and leave the store unchanged. -/
theorem C2_witness :
    (postChats emptyStore c2ChatBody 0).resp.status = 404 ∧
    (postChats emptyStore c2ChatBody 0).store = emptyStore ∧
    (postUserChats emptyStore 5 c2TitleBody 0).resp.status = 404 ∧
    (postUserChats emptyStore 5 c2TitleBody 0).store = emptyStore :=
  C2_chat_create_missing_user_404 emptyStore c2ChatBody c2TitleBody 5 0 rfl rfl rfl rfl

/-- Claim C10: two independent facts.  For every store, an existing
chat with zero messages gets 404 with the message "No messages found
for this chat" from the message-list route rather than 200 with an
empty list; and, separately, an existing user with zero chats gets 404
from the chat-list route rather than 200 with an empty list. -/
theorem C10_empty_list_404 (s : Store) (userId chatId : Nat) :
    ((∃ c, findChatById s chatId = some c) → messagesOfChat s chatId = [] →
      (getChatMessages s chatId).resp
        = { status := 404, body := .errMsg "No messages found for this chat" }) ∧
    ((∃ u, findUserById s userId = some u) → chatsOfUser s userId = [] →
      (getUserChats s userId).resp
        = { status := 404, body := .errMsg "No chats found for this user" }) := by
  constructor
  · intro _ hm
    unfold getChatMessages
    dsimp only
    rw [hm]
    rfl
  · intro _ hch
    unfold getUserChats
    dsimp only
    rw [hch]
    rfl

/-- Witness for Claim C10: in `soleChatStore` user 1 owns the sole
chat, which exists and has no messages, so its message list answers
404; in `soleUserStore` user 1 exists with zero chats, so the chat
list answers 404. -/
theorem C10_witness :
    (getChatMessages soleChatStore 1).resp
      = { status := 404, body := .errMsg "No messages found for this chat" } ∧
    (getUserChats soleUserStore 1).resp
      = { status := 404, body := .errMsg "No chats found for this user" } := by
  obtain ⟨ha, -⟩ := C10_empty_list_404 soleChatStore 1 1
  obtain ⟨-, hb⟩ := C10_empty_list_404 soleUserStore 1 1
  exact ⟨ha ⟨_, rfl⟩ rfl, hb ⟨_, rfl⟩ rfl⟩

/-- Claim C5: a user-create request lacking firstName, or carrying a
negative integer age, is answered 400 together with the non-empty list
of violated validation rules, and no User row is created. -/
theorem C5_user_validation_400 (s : Store) (b : UserBody)
    (h : b.firstName = none ∨ ∃ n : Int, n < 0 ∧ b.age = some (.vint n)) :
    (postUsers s b).resp.status = 400 ∧
    validateUserBody b ≠ [] ∧
    (postUsers s b).resp.body = .validationErrors (validateUserBody b) ∧
    (postUsers s b).store = s := by
  have hne : validateUserBody b ≠ [] := by
    unfold validateUserBody
    rcases h with h | ⟨n, hn, ha⟩
    · rw [h]
      simp [vRule, isStr]
    · rw [ha]
      have hnle : ¬ (0 : Int) ≤ n := not_le.mpr hn
      simp [vRule, isIntMin, hnle, List.append_eq_nil]
  have hfalse : (validateUserBody b).isEmpty = false := by
    cases hv : validateUserBody b with
    | nil => exact absurd hv hne
    | cons a t => rfl
  unfold postUsers
  dsimp only
  rw [hfalse]
  exact ⟨rfl, hne, rfl, rfl⟩

/-- Body for the Claim C5 witness: firstName missing and age -1. -/
def c5Body : UserBody :=
  { firstName := none, lastName := some (.vstr "Doe"), age := some (.vint (-1)) }

/-- Witness for Claim C5 at `c5Body` on the empty store. -/
theorem C5_witness :
    (postUsers emptyStore c5Body).resp.status = 400 ∧
    validateUserBody c5Body ≠ [] ∧
    (postUsers emptyStore c5Body).resp.body = .validationErrors (validateUserBody c5Body) ∧
    (postUsers emptyStore c5Body).store = emptyStore :=
  C5_user_validation_400 emptyStore c5Body (Or.inl rfl)

/-- Request body carrying a submitted question and answer. -/
def mkMessageBody (q a : String) : MessageBody :=
  { question := some (.vstr q), answer := some (.vstr a) }

/-- Claim C4: after a successful message creation under an existing
chat, the chat's message-list route answers 200 with the full message
list of the chat, and that list contains exactly one message with the
new id, carrying exactly the submitted question and answer.  The
freshness hypothesis states that every stored message id is below the
auto-increment counter, which the store bootstrap guarantees. -/
theorem C4_message_roundtrip (s : Store) (chatId : Nat) (q a : String) (c : Chat)
    (hq : q ≠ "") (ha : a ≠ "")
    (hc : findChatById s chatId = some c)
    (hfresh : ∀ m ∈ s.messages, m.id < s.nextMessageId) :
    (postChatMessages s chatId (mkMessageBody q a)).resp.status = 201 ∧
    (getChatMessages (postChatMessages s chatId (mkMessageBody q a)).store chatId).resp.status
      = 200 ∧
    (getChatMessages (postChatMessages s chatId (mkMessageBody q a)).store chatId).resp.body
      = .messageList
          (messagesOfChat (postChatMessages s chatId (mkMessageBody q a)).store chatId) ∧
    (messagesOfChat (postChatMessages s chatId (mkMessageBody q a)).store chatId).filter
        (fun x => x.id == s.nextMessageId)
      = [{ id := s.nextMessageId, chatId := chatId, question := q, answer := a }] := by
  have hcid : c.id = chatId := by
    have h1 := List.find?_some (show s.chats.find? (fun x => x.id == chatId) = some c from hc)
    exact eq_of_beq h1
  have hv : validateMessageBody (mkMessageBody q a) = [] := by
    unfold validateMessageBody mkMessageBody
    simp [vRule, isStr, notEmptyV, hq, ha, String.isEmpty_iff]
  have hpost : postChatMessages s chatId (mkMessageBody q a)
      = { resp := { status := 201
                    body := .messageObj
                      { id := s.nextMessageId, chatId := chatId, question := q, answer := a } }
          store := { s with
            messages := s.messages
              ++ [{ id := s.nextMessageId, chatId := chatId, question := q, answer := a }]
            nextMessageId := s.nextMessageId + 1 }
          calls := [.findById .chat chatId, .save .message] } := by
    unfold postChatMessages
    dsimp only
    rw [hv, hc]
    simp [mkMessageBody, asStr, hcid]
  have hmsgs : messagesOfChat (postChatMessages s chatId (mkMessageBody q a)).store chatId
      = messagesOfChat s chatId
          ++ [{ id := s.nextMessageId, chatId := chatId, question := q, answer := a }] := by
    rw [hpost]
    unfold messagesOfChat
    dsimp only
    rw [List.filter_append]
    simp
  have hlen : ((messagesOfChat (postChatMessages s chatId (mkMessageBody q a)).store
      chatId).length == 0) = false := by
    rw [hmsgs]
    simp
  have hold : (messagesOfChat s chatId).filter (fun x => x.id == s.nextMessageId) = [] := by
    rw [List.filter_eq_nil_iff]
    intro m hm
    have hmem : m ∈ s.messages := (List.mem_filter.mp hm).1
    have hlt := hfresh m hmem
    simp [beq_iff_eq]
    exact Nat.ne_of_lt hlt
  refine ⟨?_, ?_, ?_, ?_⟩
  · rw [hpost]
  · unfold getChatMessages
    dsimp only
    rw [hlen]
    rfl
  · unfold getChatMessages
    dsimp only
    rw [hlen]
    rfl
  · rw [hmsgs, List.filter_append, hold]
    simp

/-- Witness for Claim C4: posting question "q2" / answer "a2" to chat 1
of `demoStore` and reading the chat's message list back. -/
theorem C4_witness :
    (postChatMessages demoStore 1 (mkMessageBody "q2" "a2")).resp.status = 201 ∧
    (getChatMessages (postChatMessages demoStore 1 (mkMessageBody "q2" "a2")).store 1).resp.status
      = 200 ∧
    (getChatMessages (postChatMessages demoStore 1 (mkMessageBody "q2" "a2")).store 1).resp.body
      = .messageList
          (messagesOfChat (postChatMessages demoStore 1 (mkMessageBody "q2" "a2")).store 1) ∧
    (messagesOfChat (postChatMessages demoStore 1 (mkMessageBody "q2" "a2")).store 1).filter
        (fun x => x.id == demoStore.nextMessageId)
      = [{ id := demoStore.nextMessageId, chatId := 1, question := "q2", answer := "a2" }] :=
  C4_message_roundtrip demoStore 1 "q2" "a2"
    { id := 1, userId := 1, title := "t", createdAt := 0 }
    (by decide) (by decide) rfl (by decide)

/-- A non-empty violations list has `isEmpty = false`. -/
theorem isEmpty_false_of_ne_nil {l : List String} (h : l ≠ []) : l.isEmpty = false := by
  cases l with
  | nil => exact absurd rfl h
  | cons a t => rfl

/-- Claim C7: in every POST handler a validation failure is answered
before any persistence-gateway call (the call trace is empty), and on a
request that passes validation the parent lookup is the first gateway
call, with the save — when reached — coming strictly after it;
POST /users has no parent and issues only the save. -/
theorem C7_validation_before_persistence (s : Store) (userId chatId now : Nat)
    (ub : UserBody) (cb : ChatBody) (tb : TitleBody) (mb : MessageBody) :
    (validateUserBody ub ≠ [] → (postUsers s ub).calls = []) ∧
    (validateChatBody cb ≠ [] → (postChats s cb now).calls = []) ∧
    (validateTitleBody tb ≠ [] → (postUserChats s userId tb now).calls = []) ∧
    (validateMessageBody mb ≠ [] → (postChatMessages s chatId mb).calls = []) ∧
    (validateMessageBody mb ≠ [] → (postUserChatMessages s userId chatId mb).calls = []) ∧
    (validateUserBody ub = [] → (postUsers s ub).calls = [.save .user]) ∧
    (validateChatBody cb = [] →
      (postChats s cb now).calls = [.findById .user (asNat cb.userId)] ∨
      (postChats s cb now).calls = [.findById .user (asNat cb.userId), .save .chat]) ∧
    (validateTitleBody tb = [] →
      (postUserChats s userId tb now).calls = [.findById .user userId] ∨
      (postUserChats s userId tb now).calls = [.findById .user userId, .save .chat]) ∧
    (validateMessageBody mb = [] →
      (postChatMessages s chatId mb).calls = [.findById .chat chatId] ∨
      (postChatMessages s chatId mb).calls = [.findById .chat chatId, .save .message]) ∧
    (validateMessageBody mb = [] →
      (postUserChatMessages s userId chatId mb).calls = [.findByFilter .chat] ∨
      (postUserChatMessages s userId chatId mb).calls
        = [.findByFilter .chat, .save .message]) := by
  refine ⟨?_, ?_, ?_, ?_, ?_, ?_, ?_, ?_, ?_, ?_⟩
  · intro h
    unfold postUsers
    dsimp only
    rw [isEmpty_false_of_ne_nil h]
    rfl
  · intro h
    unfold postChats
    dsimp only
    rw [isEmpty_false_of_ne_nil h]
    rfl
  · intro h
    unfold postUserChats
    dsimp only
    rw [isEmpty_false_of_ne_nil h]
    rfl
  · intro h
    unfold postChatMessages
    dsimp only
    rw [isEmpty_false_of_ne_nil h]
    rfl
  · intro h
    unfold postUserChatMessages
    dsimp only
    rw [isEmpty_false_of_ne_nil h]
    rfl
  · intro h
    unfold postUsers
    dsimp only
    rw [h]
    rfl
  · intro h
    cases hu : findUserById s (asNat cb.userId) with
    | none => exact Or.inl (by unfold postChats; dsimp only; rw [h, hu]; rfl)
    | some u => exact Or.inr (by unfold postChats; dsimp only; rw [h, hu]; rfl)
  · intro h
    cases hu : findUserById s userId with
    | none => exact Or.inl (by unfold postUserChats; dsimp only; rw [h, hu]; rfl)
    | some u => exact Or.inr (by unfold postUserChats; dsimp only; rw [h, hu]; rfl)
  · intro h
    cases hch : findChatById s chatId with
    | none => exact Or.inl (by unfold postChatMessages; dsimp only; rw [h, hch]; rfl)
    | some c => exact Or.inr (by unfold postChatMessages; dsimp only; rw [h, hch]; rfl)
  · intro h
    cases hch : findChatScoped s chatId userId with
    | none => exact Or.inl (by unfold postUserChatMessages; dsimp only; rw [h, hch]; rfl)
    | some c => exact Or.inr (by unfold postUserChatMessages; dsimp only; rw [h, hch]; rfl)

/-- An all-missing user body, failing validation. -/
def badUserBody : UserBody := { firstName := none, lastName := none, age := none }

/-- An all-missing chat body, failing validation. -/
def badChatBody : ChatBody := { userId := none, title := none }

/-- A missing-title body, failing validation. -/
def badTitleBody : TitleBody := { title := none }

/-- An all-missing message body, failing validation. -/
def badMessageBody : MessageBody := { question := none, answer := none }

/-- A user body passing validation. -/
def goodUserBody : UserBody :=
  { firstName := some (.vstr "Ada"), lastName := some (.vstr "L"), age := some (.vint 30) }

/-- Witness for Claim C7: invalid bodies produce an empty call trace on
every POST route; a valid user body produces exactly the save; a valid
message body on chat 1 of `demoStore` produces the lookup followed by
the save. -/
theorem C7_witness :
    (postUsers emptyStore badUserBody).calls = [] ∧
    (postChats emptyStore badChatBody 0).calls = [] ∧
    (postUserChats emptyStore 1 badTitleBody 0).calls = [] ∧
    (postChatMessages emptyStore 1 badMessageBody).calls = [] ∧
    (postUserChatMessages emptyStore 1 1 badMessageBody).calls = [] ∧
    (postUsers emptyStore goodUserBody).calls = [.save .user] ∧
    ((postChatMessages demoStore 1 (mkMessageBody "q" "a")).calls = [.findById .chat 1] ∨
     (postChatMessages demoStore 1 (mkMessageBody "q" "a")).calls
       = [.findById .chat 1, .save .message]) := by
  obtain ⟨b1, b2, b3, b4, b5, -, -, -, -, -⟩ :=
    C7_validation_before_persistence emptyStore 1 1 0
      badUserBody badChatBody badTitleBody badMessageBody
  obtain ⟨-, -, -, -, -, g6, -, -, -, -⟩ :=
    C7_validation_before_persistence emptyStore 1 1 0
      goodUserBody badChatBody badTitleBody badMessageBody
  obtain ⟨-, -, -, -, -, -, -, -, g9, -⟩ :=
    C7_validation_before_persistence demoStore 1 1 0
      goodUserBody badChatBody badTitleBody (mkMessageBody "q" "a")
  exact ⟨b1 (by decide), b2 (by decide), b3 (by decide), b4 (by decide), b5 (by decide),
    g6 (by decide), g9 (by decide)⟩

/-- Claim C8: every list route responds with either a bare entity list
or the wrapped shape whose `total` is exactly the length of the `data`
array, and the two chat-list routes (GET /chats and
GET /users/:userId/chats) use the wrapped shape. -/
theorem C8_list_payload_shapes (s : Store) (userId chatId : Nat) :
    (getUsers s).resp.body = .userList s.users ∧
    (getChats s).resp.body = .wrappedChats s.chats s.chats.length ∧
    (chatsOfUser s userId ≠ [] →
      (getUserChats s userId).resp.body
        = .wrappedChats (chatsOfUser s userId) (chatsOfUser s userId).length) ∧
    (messagesOfChat s chatId ≠ [] →
      (getChatMessages s chatId).resp.body = .messageList (messagesOfChat s chatId)) ∧
    (∀ c, findChatScoped s chatId userId = some c →
      (getUserChatMessages s userId chatId).resp.body
        = .messageList (messagesOfChat s c.id)) := by
  refine ⟨rfl, rfl, ?_, ?_, ?_⟩
  · intro h
    have hlen : ((chatsOfUser s userId).length == 0) = false := by
      cases hch : chatsOfUser s userId with
      | nil => exact absurd hch h
      | cons a t => rfl
    unfold getUserChats
    dsimp only
    rw [hlen]
    rfl
  · intro h
    have hlen : ((messagesOfChat s chatId).length == 0) = false := by
      cases hm : messagesOfChat s chatId with
      | nil => exact absurd hm h
      | cons a t => rfl
    unfold getChatMessages
    dsimp only
    rw [hlen]
    rfl
  · intro c hc
    unfold getUserChatMessages
    rw [hc]

/-- Witness for Claim C8 at `demoStore`, whose user 1 owns chat 1 and
whose chat 1 holds message 1. -/
theorem C8_witness :
    (getUsers demoStore).resp.body = .userList demoStore.users ∧
    (getChats demoStore).resp.body = .wrappedChats demoStore.chats demoStore.chats.length ∧
    (getUserChats demoStore 1).resp.body
      = .wrappedChats (chatsOfUser demoStore 1) (chatsOfUser demoStore 1).length ∧
    (getChatMessages demoStore 1).resp.body = .messageList (messagesOfChat demoStore 1) ∧
    (getUserChatMessages demoStore 1 1).resp.body
      = .messageList
          (messagesOfChat demoStore
            (Chat.id { id := 1, userId := 1, title := "t", createdAt := 0 })) := by
  obtain ⟨h1, h2, h3, h4, h5⟩ := C8_list_payload_shapes demoStore 1 1
  exact ⟨h1, h2, h3 (by decide), h4 (by decide),
    h5 { id := 1, userId := 1, title := "t", createdAt := 0 } rfl⟩

end OllamaBackend
